import Mathlib

/-!
Verification development for the ao3.py client library.

Shallow embedding of the library's data model and operations:
* the cached-slot-property mechanism (`src/ao3/utils.py`),
* the `Constraint` range stringification (`src/ao3/utils.py`),
* the lightweight reference `Object` (`src/ao3/object.py`),
* the HTTP transport's retry/header logic (`src/ao3/http.py`),
* the bookmark / collect mixins (`src/ao3/abc.py`),
* the `reload` slot-clearing logic (`src/ao3/work.py`, `src/ao3/user.py`),
* the paged search iteration helper (`src/ao3/client.py`),
* `Work` attribute accessors (`src/ao3/work.py`).

HTML parsing itself (lxml) is an external collaborator: documents are
modelled at the selector-result interface (the lists of nodes / attribute
values a given CSS selector yields), and every piece of control flow and
conversion logic written in the library is translated faithfully.
-/

namespace Ao3

/-! ### Python-level helpers -/

/-- The numeric value of a decimal digit character, `none` otherwise. -/
def pyDigit? (c : Char) : Option Nat :=
  if c.isDigit then some (c.toNat - Char.toNat '0') else none

/-- Accumulate a decimal digit string; `none` on any non-digit. -/
def pyNatDigitsAux : List Char → Nat → Option Nat
  | [], acc => some acc
  | c :: rest, acc =>
    match pyDigit? c with
    | some d => pyNatDigitsAux rest (acc * 10 + d)
    | none => none

/-- A non-empty all-digit string's value. -/
def pyNatDigits : List Char → Option Nat
  | [] => none
  | cs => pyNatDigitsAux cs 0

/-- `int()` over the character list, with an optional leading sign. -/
def pyIntCore : List Char → Option Int
  | '-' :: rest => (pyNatDigits rest).map (fun n => -(n : Int))
  | '+' :: rest => (pyNatDigits rest).map (fun n => (n : Int))
  | cs => (pyNatDigits cs).map (fun n => (n : Int))

/-- Python `int(s)` for a decimal string, returning `none` where Python
raises `ValueError`.  (Mirrors `int()` on the `[sign]digits` strings the
library feeds it.) -/
def pyInt? (s : String) : Option Int := pyIntCore s.data

/-- Python `str(x)` for an `x : str | None`: `None` prints as `"None"`. -/
def pyStr : Option String → String
  | some s => s
  | none => "None"

/-- Split a character list on a separator character (Python
`s.split(sep)` for the one-character separators the library uses). -/
def splitOnChar (sep : Char) (cs : List Char) : List (List Char) :=
  cs.foldr
    (fun c acc =>
      match acc with
      | [] => [[c]]
      | g :: gs => if c = sep then [] :: g :: gs else (c :: g) :: gs)
    [[]]

/-- Python `s.split(sep)` for a one-character separator. -/
def pySplitChar (s : String) (sep : Char) : List String :=
  (splitOnChar sep s.data).map String.mk

/-- Python `s.strip()`. -/
def pyStrip (s : String) : String :=
  String.mk (((s.data.dropWhile Char.isWhitespace).reverse.dropWhile Char.isWhitespace).reverse)

/-- Python `s.partition(sep)` restricted to its (before, after) pair, for
a one-character separator. -/
def pyPartition (s : String) (sep : Char) : String × String :=
  match pySplitChar s sep with
  | [] => (s, "")
  | [a] => (a, "")
  | a :: rest => (a, String.intercalate (String.mk [sep]) rest)

/-- Key lookup in a Python dict modelled as an association list. -/
def dictGet (d : List (String × String)) (k : String) : Option String :=
  (d.find? (fun p => p.1 == k)).map (fun p => p.2)

/-- `k in d` for a Python dict modelled as an association list. -/
def dictHas (d : List (String × String)) (k : String) : Bool :=
  (d.find? (fun p => p.1 == k)).isSome

/-- `d[k] = v` for a Python dict modelled as an association list:
replaces the value in place if the key exists, else appends. -/
def dictSet (d : List (String × String)) (k v : String) : List (String × String) :=
  if dictHas d k then d.map (fun p => if p.1 == k then (p.1, v) else p) else d ++ [(k, v)]

/-- The exceptions observable in the modelled fragment of the library
(`src/ao3/errors.py` plus the Python built-ins the code can raise). -/
inductive AO3Exn where
  | keyError
  | attributeError
  | nameError
  | valueError
  | indexError
  | runtimeError
  | authError
  | unloadedError
  | pseudError (pseud : Option String)
  | bookmarkError (msg : Option String)
  | collectError (msg : Option String)
  | httpExn (status : Nat) (reason : String)
  deriving DecidableEq, Repr

/-! ### The cached slot property (`src/ao3/utils.py`, `CachedSlotProperty.__get__`)

The descriptor is bound to one backing slot of one instance; between
invalidations the instance (hence the provider's result) is fixed, so the
provider is modelled by its value `f` together with an invocation counter
recording each time `self.function(instance)` runs. -/

/-- The backing slot of a cached slot property plus a provider-invocation
counter (observable via a counting stub provider). `slot = none` models the
slot being unset (reading it raises `AttributeError` in the source). -/
structure SlotState (α : Type) where
  slot : Option α
  calls : Nat
  deriving DecidableEq, Repr

/-- `CachedSlotProperty.__get__`: return the stored value if the slot is
set; otherwise invoke the provider, store the result, and return it. -/
def cachedSlotGet {α : Type} (f : α) (s : SlotState α) : α × SlotState α :=
  match s.slot with
  | some v => (v, s)
  | none => (f, { slot := some f, calls := s.calls + 1 })

/-- Invalidation (`delattr` of the backing slot, as done by `reload`):
clears the slot and nothing else. -/
def cachedSlotInvalidate {α : Type} (s : SlotState α) : SlotState α :=
  { slot := none, calls := s.calls }

/-! ### `Constraint` (`src/ao3/utils.py`) -/

/-- Python f-string rendering of an `int | None` field. -/
def pyFormatOptInt : Option Int → String
  | some m => toString m
  | none => "None"

/-- `Constraint`: a numeric range with a lower bound (default 0) and an
optional upper bound. -/
structure Constraint where
  min_val : Int := 0
  max_val : Option Int := none
  deriving DecidableEq, Repr

/-- `Constraint.string`: the cascade of the source, in order. -/
def Constraint.string (c : Constraint) : String :=
  if c.min_val = 0 ∧ c.max_val = none then ""
  else if c.min_val = 0 then "<" ++ pyFormatOptInt c.max_val
  else if c.max_val = none then ">" ++ toString c.min_val
  else if some c.min_val = c.max_val then toString c.min_val
  else toString c.min_val ++ "-" ++ pyFormatOptInt c.max_val

/-! ### `Object` (`src/ao3/object.py`) -/

/-- The classes an `Object.type` attribute can hold: `Object` itself (the
default, substituted for `None`) or one of the `Page` subclasses. -/
inductive PyType where
  | objectT
  | workT
  | seriesT
  | userT
  deriving DecidableEq, Repr

/-- A lightweight reference: `id` and/or `name`, plus the expected target
type (never `None`: the constructor substitutes the `Object` class). -/
structure Object where
  id : Option Int
  name : Option String
  type : PyType
  deriving DecidableEq, Repr

/-- `isinstance(v, t)` where `v` is an `Object` instance and `t` the class
held in an `Object.type` attribute: an `Object` instance is an instance of
the `Object` class only (the `Page` subclasses are unrelated classes). -/
def isInstanceOfType (t : PyType) : Bool := t == PyType.objectT

/-- `Object.__eq__`: compares ids when the operand is an instance of
`self.type`, else `NotImplemented` (modelled as `none`). -/
def Object.eqPy (a b : Object) : Option Bool :=
  if isInstanceOfType a.type then some (a.id == b.id) else none

/-- Python `a == b` between two distinct `Object` instances: try
`a.__eq__(b)`, on `NotImplemented` reflect to `b.__eq__(a)`, and if both
decline fall back to identity (false for distinct instances). -/
def pyEqObject (a b : Object) : Bool :=
  match a.eqPy b with
  | some r => r
  | none =>
    match b.eqPy a with
    | some r => r
    | none => false

/-- An element of the tuple fed to `hash` in `Object.__hash__`. -/
inductive HashAtom where
  | ofInt (i : Int)
  | ofStr (s : String)
  | ofType (t : PyType)
  deriving DecidableEq, Repr

/-- `Object.__hash__`'s argument:
`tuple(attr for attr in (self.id, self.name, self.type) if attr is not None)`.
(`type` is never `None`.) -/
def Object.hashInput (o : Object) : List HashAtom :=
  (match o.id with | some i => [HashAtom.ofInt i] | none => []) ++
    (match o.name with | some n => [HashAtom.ofStr n] | none => []) ++
    [HashAtom.ofType o.type]

/-! ### The HTTP transport (`src/ao3/http.py`, `HTTPClient._request`) -/

/-- The session's authentication state (`AuthState`): holds the login
token.  (`client_user` is irrelevant to the modelled logic.) -/
structure AuthState where
  login_token : String
  deriving DecidableEq, Repr

/-- One HTTP response as `_request` inspects it: status, the parsed
`retry-after` header, and the reason phrase. -/
structure HResponse where
  status : Nat
  retryAfter : Option Nat := none
  reason : String := ""
  deriving DecidableEq, Repr

/-- `200 <= response.status < 300 or response.status == 302`. -/
def isSuccessStatus (s : Nat) : Bool := (200 ≤ s && s < 300) || s == 302

/-- `response.status in {500, 502, 503, 504}`. -/
def isServerErrStatus (s : Nat) : Bool := s == 500 || s == 502 || s == 503 || s == 504

/-- Outcome of `_request` (network-level disconnect/timeout excluded: the
modelled transport always yields a response). -/
inductive ReqOutcome where
  | ok (r : HResponse)
  | httpError (r : HResponse)
  | assertError
  | runtimeError
  deriving DecidableEq, Repr

/-- The `for tries in range(5)` retry loop of `_request`, with the sleeps
performed recorded in order.  `fuel` is the number of loop iterations left
(`5 - tries`), `last` the `response` variable from the previous iteration. -/
def requestLoop (transport : Nat → HResponse) :
    Nat → Nat → Option HResponse → List Nat → ReqOutcome × List Nat
  | _tries, 0, last, sleeps =>
    match last with
    | some r => (ReqOutcome.httpError r, sleeps)
    | none => (ReqOutcome.runtimeError, sleeps)
  | tries, fuel + 1, _last, sleeps =>
    let r := transport tries
    if isSuccessStatus r.status then (ReqOutcome.ok r, sleeps)
    else if r.status == 429 then
      match r.retryAfter with
      | none => (ReqOutcome.assertError, sleeps)
      | some ra => requestLoop transport (tries + 1) fuel (some r) (sleeps ++ [ra + 1])
    else if isServerErrStatus r.status then
      requestLoop transport (tries + 1) fuel (some r) (sleeps ++ [1 + tries * 2])
    else (ReqOutcome.httpError r, sleeps)

/-- `HTTPClient._request`'s loop from a fresh call: 5 attempts. -/
def pyRequest (transport : Nat → HResponse) : ReqOutcome × List Nat :=
  requestLoop transport 0 5 none []

/-- A response on which the loop retries instead of returning/raising:
429 with a `retry-after` value, or a transient server error. -/
def retryableResp (r : HResponse) : Bool :=
  !isSuccessStatus r.status &&
    ((r.status == 429 && r.retryAfter.isSome) || isServerErrStatus r.status)

/-! ### Header preparation in `_request` (`src/ao3/http.py` lines 122-129) -/

/-- The keyword arguments of `_request` that the header logic touches:
`headers` (popped with default `{}`) and `data`.  `data = none` models the
`data` key being absent from `kwargs` (so `kwargs["data"]` raises
`KeyError`); `some d` models a present body mapping (empty = falsy). -/
structure ReqKwargs where
  headers : List (String × String) := []
  data : Option (List (String × String)) := none
  deriving DecidableEq, Repr

/-- Lines 122-129 of `_request`: inject an `authenticity_token` header
when a session is held and the caller set none — from the body's
`x-csrf-token` field if the (truthy) body has one, else from the session's
login token — then stamp the user agent. -/
def prepareHeaders (state : Option AuthState) (userAgent : String) (kwargs : ReqKwargs) :
    Except AO3Exn (List (String × String)) := do
  let headers := kwargs.headers
  let headers ←
    if state.isSome && !dictHas headers "authenticity_token" then
      match kwargs.data with
      | none => Except.error AO3Exn.keyError
      | some d =>
        if !d.isEmpty && dictHas d "x-csrf-token" then
          pure (dictSet headers "authenticity_token" ((dictGet d "x-csrf-token").getD ""))
        else
          pure (dictSet headers "authenticity_token"
            (match state with | some st => st.login_token | none => ""))
    else pure headers
  pure (dictSet headers "User-Agent" userAgent)

/-! ### `reload` slot clearing (`src/ao3/work.py` `Work.reload`,
`src/ao3/user.py` `User.reload`)

A slotted instance's attribute state is the list of slot names currently
set (no `__dict__` exists: every class in the hierarchy declares
`__slots__`).  `delattr` on an unset slot raises `AttributeError`. -/

/-- `delattr(instance, attr)` on a slotted instance whose set slots are
`st`. -/
def pyDelattr (st : List String) (a : String) : Except AO3Exn (List String) :=
  if a ∈ st then Except.ok (st.erase a) else Except.error AO3Exn.attributeError

/-- The `for attr in slots: delattr(self, attr)` loop of `reload`, run in
the iteration order `order` that the Python set happens to produce. -/
def delattrAll : List String → List String → Except AO3Exn (List String)
  | [], st => Except.ok st
  | a :: rest, st =>
    match pyDelattr st a with
    | Except.error e => Except.error e
    | Except.ok st2 => delattrAll rest st2

/-- `Work.__slots__`. -/
def workSlots : List String :=
  ["_id", "_http", "_element", "_authenticity_token", "_cs_bookmark_id", "_cs_sub_id",
   "_cs_title", "_cs_authors", "_cs_restricted", "_cs_series", "_cs_summary", "_cs_rating",
   "_cs_warnings", "_cs_categories", "_cs_fandoms", "_cs_relationships", "_cs_characters",
   "_cs_freeforms", "_cs_language", "_cs_date_published", "_cs_date_updated", "_cs_nwords",
   "_cs_nchapters", "_cs_ncomments", "_cs_nkudos", "_cs_nbookmarks", "_cs_nhits"]

/-- `set(Work.__slots__).difference(("_id", "_http", "_element"))` — the
slots `Work.reload` tries to delete. -/
def workClearSlots : List String :=
  workSlots.filter (fun a => !(["_id", "_http", "_element"].contains a))

/-- `User.__slots__`. -/
def userSlots : List String :=
  ["username", "_id", "_http", "_element", "_authenticity_token", "_cs_sub_id",
   "_cs_avatar_url", "_cs_pseuds", "_cs_date_joined", "_cs_nworks", "_cs_nseries",
   "_cs_nbookmarks", "_cs_ncollections", "_cs_ngifts"]

/-- `set(User.__slots__).difference(("username", "_id", "_http", "_element"))`
— the slots `User.reload` tries to delete. -/
def userClearSlots : List String :=
  userSlots.filter (fun a => !(["username", "_id", "_http", "_element"].contains a))

/-- The slots set on the `Work` instance `Client.get_work` returns:
`__init__` assigns `_http`, the payload assigns `_id`, then `_element` is
assigned; no cached slot has been computed yet. -/
def freshWorkAttrState : List String := ["_http", "_id", "_element"]

/-- The slots set on the `User` instance `Client.get_user` returns. -/
def freshUserAttrState : List String := ["_http", "username", "_element"]

/-! ### The bookmark mixin (`src/ao3/abc.py`, `BookmarkableMixin`)

The lxml document is modelled at the selector-result interface: each field
of `BDoc` is the result list of one of the CSS queries the bookmark logic
runs; all control flow and conversions of the library are translated. -/

/-- An `<option>` inside a pseud `<select>`: text content, `value`
attribute, `selected` attribute presence. -/
structure SelectOption where
  text : String
  value : Option String
  selected : Bool
  deriving DecidableEq, Repr

/-- A bookmarkable item's backing document at the selector interface. -/
structure BDoc where
  /-- `meta[name=csrf-token]`'s `content`, `none` when the element or the
  attribute is absent (`extract_csrf_token`'s result). -/
  csrfToken : Option String := none
  /-- `div#bookmark-form > form[action^="/bookmark"]`: outer `none` = no
  match (`IndexError` path); inner value = the `action` attribute. -/
  bookmarkFormAction : Option (Option String) := none
  /-- `value` attributes of the `input[name$="[pseud_id]"]` matches. -/
  pseudInputValues : List (Option String) := []
  /-- the first `select[name$="[pseud_id]"]`'s options, if any select. -/
  pseudSelectOptions : Option (List SelectOption) := none
  deriving DecidableEq, Repr

/-- `extract_csrf_token` (`src/ao3/utils.py`) at the selector interface. -/
def extract_csrf_token (el : BDoc) : Option String := el.csrfToken

/-- `extract_pseud_id` (`src/ao3/utils.py`): first a pseud `<input>`'s
value; else the first matching `<option>` of a pseud `<select>` (matching
the specified pseud's text when given, else the selected option), whose
own `value` may still be absent; else `None`. -/
def extract_pseud_id (el : BDoc) (specified_pseud : Option String) : Option String :=
  match el.pseudInputValues with
  | v :: _ => v
  | [] =>
    match el.pseudSelectOptions with
    | some opts =>
      (opts.find? (fun o =>
        match specified_pseud with
        | some sp => o.text == sp
        | none => o.selected)).bind (fun o => o.value)
    | none => none

/-- `BookmarkableMixin.bookmark_id`'s provider: `None` if unloaded or not
logged in, else the trailing path segment of the bookmark form's action
URL, `None` on a missing form, missing/empty action, or unparsable int. -/
def bookmarkIdProvider (element : Option BDoc) (state : Option AuthState) : Option Int :=
  match element, state with
  | some el, some _ =>
    match el.bookmarkFormAction with
    | none => none
    | some none => none
    | some (some text) =>
      if text == "" then none
      else
        match pyInt? ((pySplitChar text '/').getLastD "") with
        | some n => some n
        | none => none
  | _, _ => none

/-- `Page.authenticity_token`'s provider (`src/ao3/abc.py`): `None` when
unloaded, else the document's CSRF meta token. -/
def authTokenProvider (element : Option BDoc) : Option String :=
  match element with
  | none => none
  | some el => extract_csrf_token el

/-- The slotted state of a bookmarkable item: the backing document and the
two cached slots the bookmark logic touches (`none` = slot unset). -/
structure BItem where
  element : Option BDoc := none
  authTokenSlot : Option (Option String) := none
  bookmarkIdSlot : Option (Option Int) := none
  deriving DecidableEq, Repr

/-- Read `self.authenticity_token` through its cached slot property. -/
def readAuthToken (it : BItem) : Option String × BItem :=
  match it.authTokenSlot with
  | some v => (v, it)
  | none =>
    let v := authTokenProvider it.element
    (v, { it with authTokenSlot := some v })

/-- Read `self.bookmark_id` through its cached slot property. -/
def readBookmarkId (state : Option AuthState) (it : BItem) : Option Int × BItem :=
  match it.bookmarkIdSlot with
  | some v => (v, it)
  | none =>
    let v := bookmarkIdProvider it.element state
    (v, { it with bookmarkIdSlot := some v })

/-- `as_pseud if as_pseud else None`: the argument `bookmark` forwards to
`extract_pseud_id` (the empty string is falsy). -/
def pseudArgOf : Option String → Option String
  | some s => if s == "" then none else some s
  | none => none

/-- The write response `bookmark` inspects: the last component of
`resp.url.parts`. -/
structure BookmarkResponse where
  urlLastPart : String
  deriving DecidableEq, Repr

/-- One `bookmark()` call's observable effects: the raised/returned
outcome, the item's slot state afterwards, and how many HTTP write
requests were issued. -/
structure BookmarkRun where
  result : Except AO3Exn Unit
  item : BItem
  httpCalls : Nat

/-- `BookmarkableMixin.bookmark`: guards in source order (auth token,
loaded document, existing bookmark id, pseud resolution), then the write
request; on success the new bookmark id from the response's final URL
segment is stored into the cached slot. -/
def bookmarkCall (state : Option AuthState)
    (transport : Except HResponse BookmarkResponse)
    (it : BItem) (as_pseud : Option String) : BookmarkRun :=
  -- `auth_token = getattr(self._http.state, "login_token", self.authenticity_token)`:
  -- the default argument reads (and therefore caches) the entity token eagerly.
  let p1 := readAuthToken it
  let entityTok := p1.1
  let it1 := p1.2
  let auth_token := match state with
    | some st => some st.login_token
    | none => entityTok
  match auth_token with
  | none => { result := Except.error AO3Exn.authError, item := it1, httpCalls := 0 }
  | some _ =>
    match it1.element with
    | none => { result := Except.error AO3Exn.unloadedError, item := it1, httpCalls := 0 }
    | some el =>
      let p2 := readBookmarkId state it1
      let it2 := p2.2
      match p2.1 with
      | some _ =>
        { result := Except.error (AO3Exn.bookmarkError (some "This item has already been bookmarked.")),
          item := it2, httpCalls := 0 }
      | none =>
        match extract_pseud_id el (pseudArgOf as_pseud) with
        | none => { result := Except.error (AO3Exn.pseudError as_pseud), item := it2, httpCalls := 0 }
        | some _pseud_id =>
          match transport with
          | Except.error _ =>
            { result := Except.error (AO3Exn.bookmarkError none), item := it2, httpCalls := 1 }
          | Except.ok resp =>
            match pyInt? resp.urlLastPart with
            | none => { result := Except.error AO3Exn.valueError, item := it2, httpCalls := 1 }
            | some newId =>
              { result := Except.ok (),
                item := { it2 with bookmarkIdSlot := some (some newId) }, httpCalls := 1 }

/-- The loaded, not-yet-bookmarked work document of the C5 scenario. -/
def c5doc : BDoc :=
  { csrfToken := some "etok", bookmarkFormAction := none,
    pseudInputValues := [some "55"], pseudSelectOptions := none }

/-- The freshly loaded item of the C5 scenario (no slot computed yet). -/
def c5item : BItem := { element := some c5doc }

/-! ### Paged search iteration (`src/ao3/client.py`, `Client.work_search_pages`) -/

/-- Number of elements of Python `range(start, stop, step)`. -/
def pyRangeLen (start stop step : Int) : Nat :=
  if 0 < step then (if start < stop then ((stop - start + step - 1) / step).toNat else 0)
  else if step < 0 then (if stop < start then ((start - stop - step - 1) / (-step)).toNat else 0)
  else 0

/-- Python `range(start, stop, step)` (`step = 0` never occurs here). -/
def pyRange (start stop step : Int) : List Int :=
  (List.range (pyRangeLen start stop step)).map (fun i => start + step * i)

/-- How one run of the async generator's body ends. -/
inductive GenTerm where
  | exhausted
  | raisedStopAsyncIteration
  deriving DecidableEq, Repr

/-- The loop body of `work_search_pages` (and its people/bookmark/tag
counterparts) over the page numbers the range produces, against a
simulated search where page `p` yields `resultsOnPage p` results: sets
`options.page`, fetches the page, executes `raise StopAsyncIteration` if
its results are empty, else yields it.  Returns the `(page, results)`
pairs yielded and how the run ended. -/
def workSearchPagesRun (resultsOnPage : Int → Nat) : List Int → List (Int × Nat) × GenTerm
  | [] => ([], GenTerm.exhausted)
  | p :: rest =>
    let n := resultsOnPage p
    if n = 0 then ([], GenTerm.raisedStopAsyncIteration)
    else
      let r := workSearchPagesRun resultsOnPage rest
      ((p, n) :: r.1, r.2)

/-- `Client.work_search_pages(options, start, stop, step)`. -/
def work_search_pages (resultsOnPage : Int → Nat) (start stop step : Int) :
    List (Int × Nat) × GenTerm :=
  workSearchPagesRun resultsOnPage (pyRange start stop step)

/-! ### The collect mixin (`src/ao3/abc.py`, `CollectableMixin.collect`) -/

/-- `errors.AO3_AUTH_ERROR_URL`. -/
def AO3_AUTH_ERROR_URL : String := "https://archiveofourown.org/auth_error"

/-- The response metadata `collect` inspects: status and the `Location`
header (`none` = header absent, so `resp.headers["Location"]` raises
`KeyError`). -/
structure CResponse where
  status : Nat
  location : Option String := none
  deriving DecidableEq, Repr

/-- The response body at the selector interface of the banner analysis:
how many `div.notice` matches, and for each `div.error` match the text
contents of its `ul` children (the analysis reads the first match). -/
structure CollectDoc where
  noticeCount : Nat := 0
  errorBanners : List (List String) := []
  deriving DecidableEq, Repr

/-- The banner analysis written on lines 380-393 of `collect`: no notice
and no error banner is a `CollectError`; an error banner whose `ul` list
is non-empty is a `CollectError` naming the rejected collections; an
error banner without one is a bare `CollectError`; otherwise (a notice
banner) the call returns normally. -/
def collectBannerAnalysis (doc : CollectDoc) : Except AO3Exn Unit :=
  if doc.noticeCount = 0 ∧ doc.errorBanners = [] then
    Except.error (AO3Exn.collectError none)
  else
    match doc.errorBanners with
    | [] => Except.ok ()
    | b :: _ =>
      if b ≠ [] then
        Except.error (AO3Exn.collectError (some
          ("We couldn't add your submission to the following collection(s): " ++
            String.intercalate ", " b)))
      else Except.error (AO3Exn.collectError none)

/-- Whether the name `html` is bound in `ao3.abc`'s module namespace at
runtime: `from lxml import html` appears there only under
`if TYPE_CHECKING:`, so it is not. -/
def abcModuleBindsHtml : Bool := false

/-- `CollectableMixin.collect`: resolve the auth token (session token,
else the entity's), submit the collection request, re-wrap transport
failure as `CollectError`; then inspect the protocol-successful response:
a 302 to the generic auth-error location is an `AuthError`, and a 200
body is handed to `html.fromstring` — which, `html` being unbound at
runtime, raises `NameError` before `collectBannerAnalysis`'s logic can
run. -/
def collect (state : Option AuthState) (itemToken : Option String)
    (transportResult : Except HResponse (CResponse × CollectDoc)) : Except AO3Exn Unit :=
  let auth_token := match state with
    | some st => some st.login_token
    | none => itemToken
  match auth_token with
  | none => Except.error AO3Exn.authError
  | some _ =>
    match transportResult with
    | Except.error _ => Except.error (AO3Exn.collectError none)
    | Except.ok (resp, doc) =>
      if resp.status == 302 then
        match resp.location with
        | none => Except.error AO3Exn.keyError
        | some loc =>
          if loc == AO3_AUTH_ERROR_URL then Except.error AO3Exn.authError
          else Except.ok ()
      else if resp.status == 200 then
        if abcModuleBindsHtml then collectBannerAnalysis doc
        else Except.error AO3Exn.nameError
      else Except.ok ()

/-! ### `Work` attribute accessors (`src/ao3/work.py`)

The backing document is modelled at the selector-result interface: each
field of `WorkDoc` holds what the corresponding `WORK_SELECTORS` query
yields (text contents, `.text` values, attribute values, match counts);
the accessors' control flow and conversions are translated from the
source. -/

/-- A `Work`'s backing document at the selector-result interface. -/
structure WorkDoc where
  /-- `text_content()` of the `h2.title` matches. -/
  titleTexts : List String := []
  /-- `text_content()` of the summary blockquote matches. -/
  summaryTexts : List String := []
  /-- `href` attributes of the author-link matches. -/
  authorHrefs : List (Option String) := []
  /-- number of restricted-image matches. -/
  restrictedCount : Nat := 0
  /-- `text_content()` of the warning-tag matches. -/
  warningTexts : List String := []
  /-- `.text` of the `dd.language` matches. -/
  languageTexts : List (Option String) := []
  /-- `.text` of the `dd.comments` matches. -/
  ncommentsTexts : List (Option String) := []
  /-- `.text` of the `dd.chapters` matches. -/
  nchaptersTexts : List (Option String) := []
  deriving DecidableEq, Repr

/-- `utils.int_or_none`: strip commas, convert to int, `None` on any
failure. -/
def int_or_none (data : Option String) : Option Int :=
  match data with
  | none => none
  | some s => pyInt? (String.mk (s.data.filter (fun c => c ≠ ',')))

/-- `Work.title`: `UnloadedError` without a document; first title node's
stripped text, `""` on a missing node. -/
def work_title (element : Option WorkDoc) : Except AO3Exn String :=
  match element with
  | none => Except.error AO3Exn.unloadedError
  | some d =>
    match d.titleTexts with
    | [] => Except.ok ""
    | t :: _ => Except.ok (pyStrip t)

/-- `Work.summary`: like `title` over the summary node. -/
def work_summary (element : Option WorkDoc) : Except AO3Exn String :=
  match element with
  | none => Except.error AO3Exn.unloadedError
  | some d =>
    match d.summaryTexts with
    | [] => Except.ok ""
    | t :: _ => Except.ok (pyStrip t)

/-- The generator inside `Work.authors`: one `Object` per author link,
named by `el.get("href", "").split("/")[1]` — the subscript raises
`IndexError` when the href has no second `/`-segment, aborting the tuple
construction (there is no try/except around it). -/
def authorsFromHrefs : List (Option String) → Except AO3Exn (List Object)
  | [] => Except.ok []
  | href :: rest =>
    match (pySplitChar (href.getD "") '/').get? 1 with
    | none => Except.error AO3Exn.indexError
    | some nm =>
      match authorsFromHrefs rest with
      | Except.error e => Except.error e
      | Except.ok objs =>
        Except.ok ({ id := none, name := some nm, type := PyType.userT } :: objs)

/-- `Work.authors`: `UnloadedError` without a document, else the tuple of
lightweight user references built from the author links. -/
def work_authors (element : Option WorkDoc) : Except AO3Exn (List Object) :=
  match element with
  | none => Except.error AO3Exn.unloadedError
  | some d => authorsFromHrefs d.authorHrefs

/-- `Work.warnings` (representative of the tag-list attributes):
`UnloadedError` without a document, else the matches' text contents. -/
def work_warnings (element : Option WorkDoc) : Except AO3Exn (List String) :=
  match element with
  | none => Except.error AO3Exn.unloadedError
  | some d => Except.ok d.warningTexts

/-- `Work.is_restricted`: `False` without a document, else whether any
restricted marker matched. -/
def work_is_restricted (element : Option WorkDoc) : Bool :=
  match element with
  | none => false
  | some d => decide (0 < d.restrictedCount)

/-- The `Language` enum (`src/ao3/enums.py`): a representative fragment
of the site-specific member table plus the `UNKNOWN` sentinel; the lookup
logic below is the part under verification. -/
inductive Language where
  | EN
  | DE
  | FR
  | ES
  | UNKNOWN
  deriving DecidableEq, Repr

/-- The enum members' values. -/
def Language.value : Language → String
  | Language.EN => "English"
  | Language.DE => "Deutsch"
  | Language.FR => "Français"
  | Language.ES => "Español"
  | Language.UNKNOWN => "Unknown"

/-- The enum members in declaration order. -/
def languageMembers : List Language :=
  [Language.EN, Language.DE, Language.FR, Language.ES, Language.UNKNOWN]

/-- Python `str.casefold()` restricted to the ASCII folding the member
comparison exercises. -/
def pyCasefold (s : String) : String := String.mk (s.data.map Char.toLower)

/-- `Language(x)` for `x : str | None`: exact member-value match first,
else the `_missing_` hook (casefolded comparison over the members, and
`UNKNOWN` when nothing matches) — the constructor never raises. -/
def languageCtor (x : Option String) : Language :=
  match languageMembers.find? (fun m => some m.value == x) with
  | some m => m
  | none =>
    let v := pyCasefold (pyStr x)
    match languageMembers.find? (fun m => pyCasefold m.value == v) with
    | some m => m
    | none => Language.UNKNOWN

/-- `Work.language`: the `UNKNOWN` sentinel without a document, on a
missing node, and on an unrecognized value. -/
def work_language (element : Option WorkDoc) : Language :=
  match element with
  | none => Language.UNKNOWN
  | some d =>
    match d.languageTexts with
    | [] => Language.UNKNOWN
    | t :: _ => languageCtor t

/-- `Work.ncomments` (representative of the count attributes):
`UnloadedError` without a document; else `str(node.text)` through
`int_or_none`, with falsy results (`None`, and `0` itself) collapsing to
`0`. -/
def work_ncomments (element : Option WorkDoc) : Except AO3Exn Int :=
  match element with
  | none => Except.error AO3Exn.unloadedError
  | some d =>
    match d.ncommentsTexts with
    | [] => Except.ok 0
    | t :: _ =>
      match int_or_none (some (pyStr t)) with
      | some n => Except.ok n
      | none => Except.ok 0

/-- `Work.nchapters`: `UnloadedError` without a document; else the
`current/expected` pair split on `"/"`, each side through `int_or_none`,
`(None, None)` on a missing node. -/
def work_nchapters (element : Option WorkDoc) : Except AO3Exn (Option Int × Option Int) :=
  match element with
  | none => Except.error AO3Exn.unloadedError
  | some d =>
    match d.nchaptersTexts with
    | [] => Except.ok (none, none)
    | t :: _ =>
      let pr := pyPartition (pyStr t) '/'
      Except.ok (int_or_none (some pr.1), int_or_none (some pr.2))

/-- A loaded document carrying one author link whose `href` attribute is
empty (no second `/`-segment). -/
def c8doc : WorkDoc := { authorHrefs := [some ""] }

/-! ## Theorems -/

/-- **C2.** For every cached derived field: the first read invokes the
provider once and stores the result in the backing slot; a read of a set
slot returns the stored value with no further invocation and no state
change (so the provider runs at most once between invalidations and
repeated reads return the identical value); and invalidation only clears
the slot — it neither recomputes nor touches the invocation count. -/
theorem cached_slot_property_contract :
    (∀ (α : Type) (f : α) (s : SlotState α), s.slot = none →
      cachedSlotGet f s = (f, { slot := some f, calls := s.calls + 1 })) ∧
    (∀ (α : Type) (f : α) (s : SlotState α) (v : α), s.slot = some v →
      cachedSlotGet f s = (v, s)) ∧
    (∀ (α : Type) (f : α) (s : SlotState α),
      cachedSlotGet f (cachedSlotGet f s).2 =
        ((cachedSlotGet f s).1, (cachedSlotGet f s).2)) ∧
    (∀ (α : Type) (s : SlotState α),
      cachedSlotInvalidate s = { slot := none, calls := s.calls }) := by
  refine ⟨?_, ?_, ?_, ?_⟩
  · intro α f s h
    simp [cachedSlotGet, h]
  · intro α f s v h
    simp [cachedSlotGet, h]
  · intro α f s
    cases h : s.slot with
    | none => simp [cachedSlotGet, h]
    | some v => simp [cachedSlotGet, h]
  · intro α s
    rfl

/-- Witness for C2 at a concrete provider and slot state. -/
theorem cached_slot_property_contract_witness :
    cachedSlotGet 7 ({ slot := none, calls := 0 } : SlotState Nat) =
      (7, { slot := some 7, calls := 1 }) ∧
    cachedSlotGet 7 ({ slot := some 5, calls := 1 } : SlotState Nat) =
      (5, { slot := some 5, calls := 1 }) :=
  ⟨cached_slot_property_contract.1 Nat 7 { slot := none, calls := 0 } rfl,
   cached_slot_property_contract.2.1 Nat 7 { slot := some 5, calls := 1 } 5 rfl⟩

/-- **C9.** `Constraint.string` renders, in the source's cascade order:
the empty string when min is 0 and max is absent; `"<max"` when only a max
is set; `">min"` when only a min is set; the bare number when min equals
max; `"min-max"` otherwise — together with the five concrete instances of
the spec. -/
theorem constraint_string_spec :
    (∀ c : Constraint, c.min_val = 0 → c.max_val = none → c.string = "") ∧
    (∀ (c : Constraint) (m : Int), c.min_val = 0 → c.max_val = some m →
      c.string = "<" ++ toString m) ∧
    (∀ c : Constraint, c.min_val ≠ 0 → c.max_val = none →
      c.string = ">" ++ toString c.min_val) ∧
    (∀ c : Constraint, c.min_val ≠ 0 → c.max_val = some c.min_val →
      c.string = toString c.min_val) ∧
    (∀ (c : Constraint) (m : Int), c.min_val ≠ 0 → c.max_val = some m →
      m ≠ c.min_val → c.string = toString c.min_val ++ "-" ++ toString m) ∧
    Constraint.string ⟨0, none⟩ = "" ∧
    Constraint.string ⟨0, some 5⟩ = "<5" ∧
    Constraint.string ⟨5, none⟩ = ">5" ∧
    Constraint.string ⟨5, some 5⟩ = "5" ∧
    Constraint.string ⟨2, some 8⟩ = "2-8" := by
  refine ⟨?_, ?_, ?_, ?_, ?_, by decide, by decide,
    by decide, by decide, by decide⟩
  · intro c h1 h2
    simp [Constraint.string, h1, h2]
  · intro c m h1 h2
    simp [Constraint.string, h1, h2, pyFormatOptInt]
  · intro c h1 h2
    simp [Constraint.string, h1, h2]
  · intro c h1 h2
    simp [Constraint.string, h1, h2]
  · intro c m h1 h2 h3
    simp [Constraint.string, h1, h2, pyFormatOptInt, Ne.symm h3]

/-- Witness for C9 at concrete constraints. -/
theorem constraint_string_spec_witness :
    Constraint.string ⟨0, none⟩ = "" ∧
    Constraint.string ⟨0, some 9⟩ = "<" ++ toString (9 : Int) ∧
    Constraint.string ⟨3, none⟩ = ">" ++ toString (3 : Int) ∧
    Constraint.string ⟨3, some 3⟩ = toString (3 : Int) ∧
    Constraint.string ⟨3, some 7⟩ = toString (3 : Int) ++ "-" ++ toString (7 : Int) :=
  ⟨constraint_string_spec.1 ⟨0, none⟩ rfl rfl,
   constraint_string_spec.2.1 ⟨0, some 9⟩ 9 rfl rfl,
   constraint_string_spec.2.2.1 ⟨3, none⟩ (by decide) rfl,
   constraint_string_spec.2.2.2.1 ⟨3, some 3⟩ (by decide) rfl,
   constraint_string_spec.2.2.2.2.1 ⟨3, some 7⟩ 7 (by decide) rfl (by decide)⟩

/-- **C10, counterexample.** Two `Object`s with the same id, the default
`Object` type, but different names compare equal under `__eq__` even
though their `(id, name, type)` components disagree, and the tuples fed to
`hash` differ — refuting "a equals b exactly when their id, name and type
components agree, and equal references have equal hashes". -/
theorem object_eq_tuple_counterexample :
    pyEqObject ⟨some 1, some "x", PyType.objectT⟩ ⟨some 1, some "y", PyType.objectT⟩ = true ∧
    (⟨some 1, some "x", PyType.objectT⟩ : Object).name ≠
      (⟨some 1, some "y", PyType.objectT⟩ : Object).name ∧
    Object.hashInput ⟨some 1, some "x", PyType.objectT⟩ ≠
      Object.hashInput ⟨some 1, some "y", PyType.objectT⟩ := by
  refine ⟨rfl, by decide, by decide⟩

/-- **C10, amended.** `Object.__eq__` compares only ids: whenever the
left operand's expected type accepts the other operand (for default-typed
lightweight references, any `Object`), `a == b` holds exactly when their
ids agree — name and type are not compared.  Hashing is based on the tuple
of the non-`None` components among `(id, name, type)`, so references
agreeing on all three components have equal hash inputs. -/
theorem object_eq_hash_amended :
    (∀ a b : Object, a.type = PyType.objectT →
      (pyEqObject a b = true ↔ a.id = b.id)) ∧
    (∀ a b : Object, a.id = b.id → a.name = b.name → a.type = b.type →
      a.hashInput = b.hashInput) := by
  constructor
  · intro a b h
    simp [pyEqObject, Object.eqPy, isInstanceOfType, h]
  · intro a b h1 h2 h3
    simp [Object.hashInput, h1, h2, h3]

/-- The sleeps accumulator never influences the loop's outcome. -/
theorem requestLoop_outcome_sleeps_irrel (tr : Nat → HResponse) :
    ∀ (fuel tries : Nat) (last : Option HResponse) (s1 s2 : List Nat),
      (requestLoop tr tries fuel last s1).1 = (requestLoop tr tries fuel last s2).1 := by
  intro fuel
  induction fuel with
  | zero =>
    intro tries last s1 s2
    cases last <;> rfl
  | succ n ih =>
    intro tries last s1 s2
    simp only [requestLoop]
    split
    · rfl
    · split
      · split
        · rfl
        · exact ih (tries + 1) _ _ _
      · split
        · exact ih (tries + 1) _ _ _
        · rfl

/-- A retryable response makes one loop iteration recurse on the next
attempt, carrying the response along as `last`. -/
theorem requestLoop_retry_step (tr : Nat → HResponse) (tries fuel : Nat)
    (last : Option HResponse) (sleeps : List Nat)
    (h : retryableResp (tr tries) = true) :
    (requestLoop tr tries (fuel + 1) last sleeps).1 =
      (requestLoop tr (tries + 1) fuel (some (tr tries)) []).1 := by
  have hs : isSuccessStatus (tr tries).status = false := by
    revert h
    unfold retryableResp
    cases isSuccessStatus (tr tries).status <;> simp
  have hcore : ((tr tries).status == 429 && (tr tries).retryAfter.isSome) ||
      isServerErrStatus (tr tries).status = true := by
    revert h
    unfold retryableResp
    rw [hs]
    simp
  simp only [requestLoop, hs, Bool.false_eq_true, if_false]
  by_cases h429 : (tr tries).status = 429
  · have hsrv : isServerErrStatus (tr tries).status = false := by
      rw [h429]
      rfl
    have hsome : (tr tries).retryAfter.isSome = true := by
      revert hcore
      rw [hsrv, h429]
      simp
    obtain ⟨ra, hra⟩ := Option.isSome_iff_exists.mp hsome
    simp only [h429, hra, beq_self_eq_true, if_true]
    exact requestLoop_outcome_sleeps_irrel tr fuel (tries + 1) _ _ _
  · have h429b : ((tr tries).status == 429) = false := by
      simp [h429]
    have hsrv : isServerErrStatus (tr tries).status = true := by
      revert hcore
      rw [h429b]
      simp
    simp only [h429b, Bool.false_eq_true, if_false, hsrv, if_true]
    exact requestLoop_outcome_sleeps_irrel tr fuel (tries + 1) _ _ _

/-- `HTTPClient._request`'s transport for the spec's retry scenario:
one 429 with `retry-after: 2`, then 200. -/
def retryScenarioTransport : Nat → HResponse := fun n =>
  if n = 0 then { status := 429, retryAfter := some 2, reason := "Too Many Requests" }
  else { status := 200, reason := "OK" }

/-- **C3.** The transport's request operation: a 429 with `retry-after: 2`
followed by a 200 yields exactly one retry sleep of `2 + 1 = 3` seconds
and the successful response; five consecutive retryable responses exhaust
the 5-attempt cap and raise an HTTP-failure error carrying the last
(fifth) response, hence its status and reason; and any unhandled status
raises an HTTP-failure error immediately, with no sleeps and no retry. -/
theorem http_request_retry_contract :
    pyRequest retryScenarioTransport =
      (ReqOutcome.ok { status := 200, reason := "OK" }, [3]) ∧
    (∀ transport : Nat → HResponse,
      (∀ n, n < 5 → retryableResp (transport n) = true) →
      (pyRequest transport).1 = ReqOutcome.httpError (transport 4)) ∧
    (∀ transport : Nat → HResponse,
      isSuccessStatus (transport 0).status = false →
      (transport 0).status ≠ 429 →
      isServerErrStatus (transport 0).status = false →
      pyRequest transport = (ReqOutcome.httpError (transport 0), [])) := by
  refine ⟨by decide, ?_, ?_⟩
  · intro tr h
    have s0 := requestLoop_retry_step tr 0 4 none [] (h 0 (by omega))
    have s1 := requestLoop_retry_step tr 1 3 (some (tr 0)) [] (h 1 (by omega))
    have s2 := requestLoop_retry_step tr 2 2 (some (tr 1)) [] (h 2 (by omega))
    have s3 := requestLoop_retry_step tr 3 1 (some (tr 2)) [] (h 3 (by omega))
    have s4 := requestLoop_retry_step tr 4 0 (some (tr 3)) [] (h 4 (by omega))
    unfold pyRequest
    rw [s0, s1, s2, s3, s4]
    rfl
  · intro tr h1 h2 h3
    have h2b : ((tr 0).status == 429) = false := by
      simp [h2]
    simp only [pyRequest, requestLoop, h1, Bool.false_eq_true, if_false, h2b, h3]

/-- Witness for C3: the exhaustion clause at an always-429 transport and
the immediate-failure clause at a 404 transport. -/
theorem http_request_retry_contract_witness :
    (pyRequest (fun _ => { status := 429, retryAfter := some 2, reason := "Too Many Requests" })).1 =
      ReqOutcome.httpError { status := 429, retryAfter := some 2, reason := "Too Many Requests" } ∧
    pyRequest (fun _ => { status := 404, reason := "Not Found" }) =
      (ReqOutcome.httpError { status := 404, reason := "Not Found" }, []) :=
  ⟨http_request_retry_contract.2.1
      (fun _ => { status := 429, retryAfter := some 2, reason := "Too Many Requests" })
      (fun _ _ => rfl),
   http_request_retry_contract.2.2
      (fun _ => { status := 404, reason := "Not Found" }) rfl (by decide) rfl⟩

/-- **C4.** Header injection in `_request`: with a session held and no
caller-set `authenticity_token` header, a request whose `kwargs` carry no
`data` key crashes with `KeyError` (the code subscripts `kwargs["data"]`
unconditionally) instead of injecting the session token; when a truthy
body with an `x-csrf-token` field is present that field's value is
injected; when a body is present without one, the session's login token is
injected; with no session the header logic is skipped entirely. -/
theorem http_header_injection_behavior :
    prepareHeaders (some { login_token := "sess-token" }) "UA"
      { headers := [], data := none } = Except.error AO3Exn.keyError ∧
    (∀ (st : AuthState) (ua v : String) (hs d : List (String × String)),
      dictHas hs "authenticity_token" = false → d ≠ [] →
      dictGet d "x-csrf-token" = some v →
      prepareHeaders (some st) ua { headers := hs, data := some d } =
        Except.ok (dictSet (dictSet hs "authenticity_token" v) "User-Agent" ua)) ∧
    (∀ (st : AuthState) (ua : String) (hs d : List (String × String)),
      dictHas hs "authenticity_token" = false →
      (d = [] ∨ dictHas d "x-csrf-token" = false) →
      prepareHeaders (some st) ua { headers := hs, data := some d } =
        Except.ok (dictSet (dictSet hs "authenticity_token" st.login_token) "User-Agent" ua)) ∧
    (∀ (ua : String) (kw : ReqKwargs),
      prepareHeaders none ua kw = Except.ok (dictSet kw.headers "User-Agent" ua)) := by
  refine ⟨rfl, ?_, ?_, ?_⟩
  · intro st ua v hs d h1 h2 h3
    have hhas : dictHas d "x-csrf-token" = true := by
      unfold dictHas
      unfold dictGet at h3
      cases hf : List.find? (fun p => p.1 == "x-csrf-token") d with
      | none => rw [hf] at h3; simp at h3
      | some p => rfl
    have hne : d.isEmpty = false := by
      cases d with
      | nil => exact absurd rfl h2
      | cons a l => rfl
    simp only [prepareHeaders, Option.isSome_some, Bool.true_and, h1, Bool.not_false,
      hne, hhas, Bool.and_self, if_true, h3, Option.getD_some, bind, Except.bind, pure, Except.pure]
  · intro st ua hs d h1 h2
    have hfalse : (!d.isEmpty && dictHas d "x-csrf-token") = false := by
      rcases h2 with h | h
      · subst h; rfl
      · rw [h]; simp
    simp only [prepareHeaders, Option.isSome_some, Bool.true_and, h1, Bool.not_false,
      hfalse, Bool.false_eq_true, if_false, if_true, bind, Except.bind, pure, Except.pure]
  · intro ua kw
    simp only [prepareHeaders, Option.isSome_none, Bool.false_and, Bool.false_eq_true,
      if_false, bind, Except.bind, pure, Except.pure]

/-- Witness for C4 at concrete header/body inputs. -/
theorem http_header_injection_behavior_witness :
    prepareHeaders (some { login_token := "S" }) "UA"
      { headers := [], data := some [("x-csrf-token", "C")] } =
      Except.ok (dictSet (dictSet [] "authenticity_token" "C") "User-Agent" "UA") ∧
    prepareHeaders (some { login_token := "S" }) "UA"
      { headers := [], data := some [("k", "v")] } =
      Except.ok (dictSet (dictSet [] "authenticity_token" "S") "User-Agent" "UA") ∧
    prepareHeaders none "UA" { headers := [("a", "b")], data := none } =
      Except.ok (dictSet [("a", "b")] "User-Agent" "UA") :=
  ⟨http_header_injection_behavior.2.1 { login_token := "S" } "UA" "C" [] [("x-csrf-token", "C")]
      rfl (by decide) rfl,
   http_header_injection_behavior.2.2.1 { login_token := "S" } "UA" [] [("k", "v")]
      rfl (Or.inr rfl),
   http_header_injection_behavior.2.2.2 "UA" { headers := [("a", "b")], data := none }⟩

/-- Witness for the amended C10 at concrete references. -/
theorem object_eq_hash_amended_witness :
    (pyEqObject ⟨some 4, none, PyType.objectT⟩ ⟨some 4, some "z", PyType.objectT⟩ = true ↔
      (some (4 : Int) = some 4)) ∧
    Object.hashInput ⟨some 4, some "z", PyType.userT⟩ =
      Object.hashInput ⟨some 4, some "z", PyType.userT⟩ :=
  ⟨object_eq_hash_amended.1 ⟨some 4, none, PyType.objectT⟩ ⟨some 4, some "z", PyType.objectT⟩ rfl,
   object_eq_hash_amended.2 ⟨some 4, some "z", PyType.userT⟩ ⟨some 4, some "z", PyType.userT⟩
     rfl rfl rfl⟩

/-- If some slot in the iteration order is unset, the `delattr` loop
raises `AttributeError` (whatever the order and whatever was deleted
before reaching it). -/
theorem delattrAll_error_of_unset :
    ∀ (order st : List String) (a : String), a ∈ order → a ∉ st →
      delattrAll order st = Except.error AO3Exn.attributeError := by
  intro order
  induction order with
  | nil =>
    intro st a ha _
    exact absurd ha (List.not_mem_nil a)
  | cons b rest ih =>
    intro st a ha hnotin
    by_cases hb : b ∈ st
    · have hab : a ≠ b := fun h => hnotin (h ▸ hb)
      have harest : a ∈ rest := by
        rcases List.mem_cons.mp ha with h | h
        · exact absurd h hab
        · exact h
      have hnotin2 : a ∉ st.erase b := fun h => hnotin (List.mem_of_mem_erase h)
      simp only [delattrAll, pyDelattr, hb, if_true]
      exact ih (st.erase b) a harest hnotin2
    · simp only [delattrAll, pyDelattr, hb, if_false]

/-- If every slot in a duplicate-free iteration order is set, the
`delattr` loop succeeds and removes exactly those slots. -/
theorem delattrAll_ok_of_set :
    ∀ (order st : List String), st.Nodup → order.Nodup →
      (∀ a ∈ order, a ∈ st) →
      ∃ st2, delattrAll order st = Except.ok st2 ∧
        ∀ b, b ∈ st2 ↔ b ∈ st ∧ b ∉ order := by
  intro order
  induction order with
  | nil =>
    intro st _ _ _
    exact ⟨st, rfl, fun b => by simp⟩
  | cons a rest ih =>
    intro st hst hord hsub
    have ha : a ∈ st := hsub a (List.mem_cons_self a rest)
    have hanotrest : a ∉ rest := (List.nodup_cons.mp hord).1
    have hordrest : rest.Nodup := (List.nodup_cons.mp hord).2
    have hst2 : (st.erase a).Nodup := hst.erase a
    have hsub2 : ∀ x ∈ rest, x ∈ st.erase a := by
      intro x hx
      have hxa : x ≠ a := fun h => hanotrest (h ▸ hx)
      exact (List.Nodup.mem_erase_iff hst).mpr ⟨hxa, hsub x (List.mem_cons_of_mem a hx)⟩
    obtain ⟨st2, heq, hchar⟩ := ih (st.erase a) hst2 hordrest hsub2
    refine ⟨st2, ?_, ?_⟩
    · simp only [delattrAll, pyDelattr, ha, if_true]
      exact heq
    · intro b
      rw [hchar b, List.Nodup.mem_erase_iff hst]
      constructor
      · rintro ⟨⟨hba, hbst⟩, hbrest⟩
        exact ⟨hbst, by simp [hba, hbrest]⟩
      · rintro ⟨hbst, hbnot⟩
        have := List.mem_cons.not.mp hbnot
        push_neg at this
        exact ⟨⟨this.1, hbst⟩, this.2⟩

/-- **C1.** `reload`'s cache clearing: on the `Work`/`User` instance the
client actually returns (only identity, transport and document slots set,
no cached field ever computed), the unconditional `delattr` over the slot
set raises `AttributeError` in every possible set-iteration order, so
`reload` crashes instead of completing; the clearing behaves as claimed
only when every cached slot happens to be set, in which case exactly the
slots outside the protected tuple are removed. -/
theorem reload_clear_slots_behavior :
    (∀ order : List String, order.Perm workClearSlots →
      delattrAll order freshWorkAttrState = Except.error AO3Exn.attributeError) ∧
    (∀ order : List String, order.Perm userClearSlots →
      delattrAll order freshUserAttrState = Except.error AO3Exn.attributeError) ∧
    (∀ order : List String, order.Perm workClearSlots →
      ∃ st2, delattrAll order workSlots = Except.ok st2 ∧
        ∀ b, b ∈ st2 ↔ b ∈ workSlots ∧ b ∉ workClearSlots) ∧
    delattrAll workClearSlots workSlots = Except.ok ["_id", "_http", "_element"] := by
  refine ⟨?_, ?_, ?_, by rfl⟩
  · intro order hperm
    have hmem : "_cs_title" ∈ order := hperm.mem_iff.mpr (by decide)
    exact delattrAll_error_of_unset order freshWorkAttrState "_cs_title" hmem (by decide)
  · intro order hperm
    have hmem : "_cs_avatar_url" ∈ order := hperm.mem_iff.mpr (by decide)
    exact delattrAll_error_of_unset order freshUserAttrState "_cs_avatar_url" hmem (by decide)
  · intro order hperm
    obtain ⟨st2, heq, hchar⟩ :=
      delattrAll_ok_of_set order workSlots (by decide) (hperm.nodup_iff.mpr (by decide))
        (fun a ha => by
          have : a ∈ workClearSlots := hperm.mem_iff.mp ha
          exact List.mem_of_mem_filter this)
    refine ⟨st2, heq, fun b => ?_⟩
    rw [hchar b]
    exact and_congr_right fun _ => not_congr hperm.mem_iff

/-- Witness for C1: the failing run in the source-listed slot order, and
the successful run on a fully-populated instance. -/
theorem reload_clear_slots_behavior_witness :
    delattrAll workClearSlots freshWorkAttrState = Except.error AO3Exn.attributeError ∧
    delattrAll userClearSlots freshUserAttrState = Except.error AO3Exn.attributeError ∧
    ∃ st2, delattrAll workClearSlots workSlots = Except.ok st2 ∧
      ∀ b, b ∈ st2 ↔ b ∈ workSlots ∧ b ∉ workClearSlots :=
  ⟨reload_clear_slots_behavior.1 workClearSlots (List.Perm.refl _),
   reload_clear_slots_behavior.2.1 userClearSlots (List.Perm.refl _),
   reload_clear_slots_behavior.2.2.1 workClearSlots (List.Perm.refl _)⟩

/-- Reading the authenticity-token slot never touches the document or the
bookmark-id slot. -/
theorem readAuthToken_preserves (it : BItem) :
    (readAuthToken it).2.element = it.element ∧
      (readAuthToken it).2.bookmarkIdSlot = it.bookmarkIdSlot := by
  cases h : it.authTokenSlot <;> simp [readAuthToken, h]

/-- **C5.** `bookmark()`: with no session and no resolvable entity token
it fails with `AuthError`; with a token but no backing document it fails
with `UnloadedError`; with a cached non-`None` `bookmark_id` it fails with
the already-bookmarked `BookmarkError`; each of these without issuing any
HTTP request.  With no pseud resolvable it fails with `PseudError`.  On
success the write is issued once and the new bookmark id from the
response's final URL segment is cached.  Consequently, in the concrete
two-call scenario the first call succeeds, populates `bookmark_id`, and
the second call fails with the already-bookmarked error making no write
request. -/
theorem bookmark_guards_and_idempotence :
    (∀ (tr : Except HResponse BookmarkResponse) (it : BItem) (p : Option String),
      (readAuthToken it).1 = none →
      (bookmarkCall none tr it p).result = Except.error AO3Exn.authError ∧
        (bookmarkCall none tr it p).httpCalls = 0) ∧
    (∀ (tr : Except HResponse BookmarkResponse) (it : BItem) (p : Option String)
      (st : AuthState), it.element = none →
      (bookmarkCall (some st) tr it p).result = Except.error AO3Exn.unloadedError ∧
        (bookmarkCall (some st) tr it p).httpCalls = 0) ∧
    (∀ (tr : Except HResponse BookmarkResponse) (it : BItem) (p : Option String)
      (st : AuthState) (el : BDoc) (n : Int),
      it.element = some el → it.bookmarkIdSlot = some (some n) →
      (bookmarkCall (some st) tr it p).result =
        Except.error (AO3Exn.bookmarkError (some "This item has already been bookmarked.")) ∧
        (bookmarkCall (some st) tr it p).httpCalls = 0) ∧
    (∀ (tr : Except HResponse BookmarkResponse) (it : BItem) (p : Option String)
      (st : AuthState) (el : BDoc),
      it.element = some el → it.bookmarkIdSlot = some none →
      extract_pseud_id el (pseudArgOf p) = none →
      (bookmarkCall (some st) tr it p).result = Except.error (AO3Exn.pseudError p) ∧
        (bookmarkCall (some st) tr it p).httpCalls = 0) ∧
    (∀ (it : BItem) (p : Option String) (st : AuthState) (el : BDoc)
      (resp : BookmarkResponse) (pid : String) (newId : Int),
      it.element = some el → it.bookmarkIdSlot = some none →
      extract_pseud_id el (pseudArgOf p) = some pid →
      pyInt? resp.urlLastPart = some newId →
      (bookmarkCall (some st) (Except.ok resp) it p).result = Except.ok () ∧
        (bookmarkCall (some st) (Except.ok resp) it p).item.bookmarkIdSlot =
          some (some newId) ∧
        (bookmarkCall (some st) (Except.ok resp) it p).httpCalls = 1) ∧
    ((bookmarkCall (some { login_token := "sess" }) (Except.ok { urlLastPart := "777" })
        c5item none).result = Except.ok () ∧
      (bookmarkCall (some { login_token := "sess" }) (Except.ok { urlLastPart := "777" })
        c5item none).item.bookmarkIdSlot = some (some 777) ∧
      (bookmarkCall (some { login_token := "sess" }) (Except.ok { urlLastPart := "777" })
        c5item none).httpCalls = 1 ∧
      (bookmarkCall (some { login_token := "sess" }) (Except.ok { urlLastPart := "888" })
        (bookmarkCall (some { login_token := "sess" }) (Except.ok { urlLastPart := "777" })
          c5item none).item none).result =
        Except.error (AO3Exn.bookmarkError (some "This item has already been bookmarked.")) ∧
      (bookmarkCall (some { login_token := "sess" }) (Except.ok { urlLastPart := "888" })
        (bookmarkCall (some { login_token := "sess" }) (Except.ok { urlLastPart := "777" })
          c5item none).item none).httpCalls = 0) := by
  refine ⟨?_, ?_, ?_, ?_, ?_, by exact ⟨rfl, rfl, rfl, rfl, rfl⟩⟩
  · intro tr it p h
    cases hra : readAuthToken it with
    | mk tok it1 =>
      rw [hra] at h
      simp only at h
      subst h
      simp [bookmarkCall, hra]
  · intro tr it p st h
    cases hra : readAuthToken it with
    | mk tok it1 =>
      have hel : it1.element = none := by
        have hp := (readAuthToken_preserves it).1
        rw [hra] at hp
        simpa [h] using hp
      simp [bookmarkCall, hra, hel]
  · intro tr it p st el n h1 h2
    cases hra : readAuthToken it with
    | mk tok it1 =>
      have hel : it1.element = some el := by
        have hp := (readAuthToken_preserves it).1
        rw [hra] at hp
        simpa [h1] using hp
      have hbid : it1.bookmarkIdSlot = some (some n) := by
        have hp := (readAuthToken_preserves it).2
        rw [hra] at hp
        simpa [h2] using hp
      simp [bookmarkCall, hra, hel, readBookmarkId, hbid]
  · intro tr it p st el h1 h2 h3
    cases hra : readAuthToken it with
    | mk tok it1 =>
      have hel : it1.element = some el := by
        have hp := (readAuthToken_preserves it).1
        rw [hra] at hp
        simpa [h1] using hp
      have hbid : it1.bookmarkIdSlot = some none := by
        have hp := (readAuthToken_preserves it).2
        rw [hra] at hp
        simpa [h2] using hp
      simp [bookmarkCall, hra, hel, readBookmarkId, hbid, h3]
  · intro it p st el resp pid newId h1 h2 h3 h4
    cases hra : readAuthToken it with
    | mk tok it1 =>
      have hel : it1.element = some el := by
        have hp := (readAuthToken_preserves it).1
        rw [hra] at hp
        simpa [h1] using hp
      have hbid : it1.bookmarkIdSlot = some none := by
        have hp := (readAuthToken_preserves it).2
        rw [hra] at hp
        simpa [h2] using hp
      simp [bookmarkCall, hra, hel, readBookmarkId, hbid, h3, h4]

/-- Witness for C5: each guard at a concrete item/transport. -/
theorem bookmark_guards_and_idempotence_witness :
    ((bookmarkCall none (Except.ok { urlLastPart := "1" }) { element := none } none).result =
      Except.error AO3Exn.authError ∧
      (bookmarkCall none (Except.ok { urlLastPart := "1" }) { element := none } none).httpCalls = 0) ∧
    ((bookmarkCall (some { login_token := "s" }) (Except.ok { urlLastPart := "1" })
        { element := none } none).result = Except.error AO3Exn.unloadedError ∧
      (bookmarkCall (some { login_token := "s" }) (Except.ok { urlLastPart := "1" })
        { element := none } none).httpCalls = 0) ∧
    ((bookmarkCall (some { login_token := "s" }) (Except.ok { urlLastPart := "1" })
        { element := some c5doc, bookmarkIdSlot := some (some 9) } none).result =
      Except.error (AO3Exn.bookmarkError (some "This item has already been bookmarked.")) ∧
      (bookmarkCall (some { login_token := "s" }) (Except.ok { urlLastPart := "1" })
        { element := some c5doc, bookmarkIdSlot := some (some 9) } none).httpCalls = 0) ∧
    ((bookmarkCall (some { login_token := "s" }) (Except.ok { urlLastPart := "1" })
        { element := some { }, bookmarkIdSlot := some none } none).result =
      Except.error (AO3Exn.pseudError none) ∧
      (bookmarkCall (some { login_token := "s" }) (Except.ok { urlLastPart := "1" })
        { element := some { }, bookmarkIdSlot := some none } none).httpCalls = 0) ∧
    ((bookmarkCall (some { login_token := "s" }) (Except.ok { urlLastPart := "42" })
        { element := some c5doc, bookmarkIdSlot := some none } none).result = Except.ok () ∧
      (bookmarkCall (some { login_token := "s" }) (Except.ok { urlLastPart := "42" })
        { element := some c5doc, bookmarkIdSlot := some none } none).item.bookmarkIdSlot =
        some (some 42) ∧
      (bookmarkCall (some { login_token := "s" }) (Except.ok { urlLastPart := "42" })
        { element := some c5doc, bookmarkIdSlot := some none } none).httpCalls = 1) :=
  ⟨bookmark_guards_and_idempotence.1 (Except.ok { urlLastPart := "1" }) { element := none }
      none rfl,
   bookmark_guards_and_idempotence.2.1 (Except.ok { urlLastPart := "1" }) { element := none }
      none { login_token := "s" } rfl,
   bookmark_guards_and_idempotence.2.2.1 (Except.ok { urlLastPart := "1" })
      { element := some c5doc, bookmarkIdSlot := some (some 9) } none { login_token := "s" }
      c5doc 9 rfl rfl,
   bookmark_guards_and_idempotence.2.2.2.1 (Except.ok { urlLastPart := "1" })
      { element := some { }, bookmarkIdSlot := some none } none { login_token := "s" }
      { } rfl rfl rfl,
   bookmark_guards_and_idempotence.2.2.2.2.1
      { element := some c5doc, bookmarkIdSlot := some none } none { login_token := "s" }
      c5doc { urlLastPart := "42" } "55" 42 rfl rfl rfl rfl⟩

/-- **C6.** The paged search helper over pages with 3, 2, 0 results
yields exactly the two non-empty pages — but the run ends by executing
`raise StopAsyncIteration` inside the async generator (delivered to the
consumer as `RuntimeError`), not by clean exhaustion; in general a run
whose pages are all non-empty ends by exhausting the range, while any
range containing an empty page ends in the raise. -/
theorem work_search_pages_termination :
    work_search_pages (fun p => if p = 1 then 3 else if p = 2 then 2 else 0) 1 4 1 =
      ([(1, 3), (2, 2)], GenTerm.raisedStopAsyncIteration) ∧
    (∀ (f : Int → Nat) (pages : List Int), (∀ p ∈ pages, f p ≠ 0) →
      workSearchPagesRun f pages = (pages.map (fun p => (p, f p)), GenTerm.exhausted)) ∧
    (∀ (f : Int → Nat) (pages : List Int), (∃ p ∈ pages, f p = 0) →
      (workSearchPagesRun f pages).2 = GenTerm.raisedStopAsyncIteration) := by
  refine ⟨by decide, ?_, ?_⟩
  · intro f pages h
    induction pages with
    | nil => rfl
    | cons q rest ih =>
      have hq : f q ≠ 0 := h q (List.mem_cons_self q rest)
      have hrest := ih (fun p hp => h p (List.mem_cons_of_mem q hp))
      simp only [workSearchPagesRun, hq, if_false, hrest, List.map_cons]
  · intro f pages h
    induction pages with
    | nil =>
      obtain ⟨p, hp, _⟩ := h
      exact absurd hp (List.not_mem_nil p)
    | cons q rest ih =>
      by_cases hq : f q = 0
      · simp [workSearchPagesRun, hq]
      · obtain ⟨p, hp, hfp⟩ := h
        have hprest : p ∈ rest := by
          rcases List.mem_cons.mp hp with rfl | hm
          · exact absurd hfp hq
          · exact hm
        have := ih ⟨p, hprest, hfp⟩
        simp [workSearchPagesRun, hq, this]

/-- Witness for C6: all-non-empty pages exhaust the range; an empty first
page triggers the raise. -/
theorem work_search_pages_termination_witness :
    workSearchPagesRun (fun _ => 5) [1, 2] = ([(1, 5), (2, 5)], GenTerm.exhausted) ∧
    (workSearchPagesRun (fun _ => 0) [1]).2 = GenTerm.raisedStopAsyncIteration :=
  ⟨work_search_pages_termination.2.1 (fun _ => 5) [1, 2] (fun p _ => by norm_num),
   work_search_pages_termination.2.2 (fun _ => 0) [1] ⟨1, by decide, rfl⟩⟩

/-- **C7.** `collect`'s outcome analysis: a 302 redirect to the generic
auth-error location raises `AuthError` despite protocol-level success;
but every 200 response raises `NameError` at `html.fromstring` (the
`lxml.html` import in `ao3/abc.py` exists only under `TYPE_CHECKING`), so
the banner analysis — which, as written, would yield `CollectError` when
no banner is present, `CollectError` naming the rejected collections on
an error banner, and a normal return on a notice banner — is unreachable. -/
theorem collect_outcome_analysis :
    (∀ (st : AuthState) (doc : CollectDoc),
      collect (some st) none
          (Except.ok ({ status := 302, location := some AO3_AUTH_ERROR_URL }, doc)) =
        Except.error AO3Exn.authError) ∧
    (∀ (st : AuthState) (doc : CollectDoc),
      collect (some st) none (Except.ok ({ status := 200 }, doc)) =
        Except.error AO3Exn.nameError) ∧
    collect (some { login_token := "sess" }) none
        (Except.ok ({ status := 200 }, { noticeCount := 1 })) =
      Except.error AO3Exn.nameError ∧
    (∀ doc : CollectDoc, doc.noticeCount = 0 → doc.errorBanners = [] →
      collectBannerAnalysis doc = Except.error (AO3Exn.collectError none)) ∧
    (∀ (doc : CollectDoc) (names : List String) (rest : List (List String)),
      doc.errorBanners = names :: rest → names ≠ [] →
      collectBannerAnalysis doc = Except.error (AO3Exn.collectError (some
        ("We couldn't add your submission to the following collection(s): " ++
          String.intercalate ", " names)))) ∧
    (∀ doc : CollectDoc, 0 < doc.noticeCount → doc.errorBanners = [] →
      collectBannerAnalysis doc = Except.ok ()) := by
  refine ⟨?_, ?_, rfl, ?_, ?_, ?_⟩
  · intro st doc
    rfl
  · intro st doc
    rfl
  · intro doc h1 h2
    simp [collectBannerAnalysis, h1, h2]
  · intro doc names rest h1 h2
    have hne : ¬(doc.noticeCount = 0 ∧ doc.errorBanners = []) := by
      rintro ⟨_, hb⟩
      rw [h1] at hb
      exact List.cons_ne_nil names rest hb
    simp [collectBannerAnalysis, hne, h1, h2]
  · intro doc h1 h2
    have hn0 : ¬doc.noticeCount = 0 := by omega
    simp [collectBannerAnalysis, hn0, h2]

/-- Witness for C7 at concrete documents and responses. -/
theorem collect_outcome_analysis_witness :
    collect (some { login_token := "s" }) none
        (Except.ok ({ status := 302, location := some AO3_AUTH_ERROR_URL },
          { noticeCount := 0 })) = Except.error AO3Exn.authError ∧
    collect (some { login_token := "s" }) none
        (Except.ok ({ status := 200 }, { noticeCount := 0 })) =
      Except.error AO3Exn.nameError ∧
    collectBannerAnalysis { noticeCount := 0, errorBanners := [] } =
      Except.error (AO3Exn.collectError none) ∧
    collectBannerAnalysis { noticeCount := 0, errorBanners := [["c1", "c2"]] } =
      Except.error (AO3Exn.collectError (some
        ("We couldn't add your submission to the following collection(s): " ++
          String.intercalate ", " ["c1", "c2"]))) ∧
    collectBannerAnalysis { noticeCount := 1, errorBanners := [] } = Except.ok () :=
  ⟨collect_outcome_analysis.1 { login_token := "s" } { noticeCount := 0 },
   collect_outcome_analysis.2.1 { login_token := "s" } { noticeCount := 0 },
   collect_outcome_analysis.2.2.2.1 { noticeCount := 0, errorBanners := [] } rfl rfl,
   collect_outcome_analysis.2.2.2.2.1 { noticeCount := 0, errorBanners := [["c1", "c2"]] }
     ["c1", "c2"] [] rfl (by decide),
   collect_outcome_analysis.2.2.2.2.2 { noticeCount := 1, errorBanners := [] }
     (by decide) rfl⟩

/-- **C8, counterexample.** On a loaded document whose single author link
has an empty `href`, the creator list propagates an `IndexError` instead
of degrading to a neutral default — refuting the claim that on a loaded
document a failed structural lookup in these attributes yields the
attribute's neutral default rather than propagating an exception. -/
theorem work_authors_lookup_counterexample :
    work_authors (some c8doc) = Except.error AO3Exn.indexError ∧
    (Except.error AO3Exn.indexError : Except AO3Exn (List Object)) ≠ Except.ok [] :=
  ⟨rfl, by simp⟩

/-- **C8, amended.** Without a backing document the always-expected
attributes (title, summary, creator list, tag lists, counts, chapters)
raise the unloaded error while the best-effort attributes degrade —
`is_restricted` to `False` and `language` to the `UNKNOWN` sentinel.  On
a loaded document a failed structural lookup in the guarded attributes
(title, summary, language, counts, chapters) yields the attribute's
neutral default; the creator list is unguarded: a missing node still
yields an empty tuple, but an author link without a second `/`-segment
propagates an `IndexError`. -/
theorem work_attribute_policy_amended :
    work_title none = Except.error AO3Exn.unloadedError ∧
    work_summary none = Except.error AO3Exn.unloadedError ∧
    work_authors none = Except.error AO3Exn.unloadedError ∧
    work_warnings none = Except.error AO3Exn.unloadedError ∧
    work_ncomments none = Except.error AO3Exn.unloadedError ∧
    work_nchapters none = Except.error AO3Exn.unloadedError ∧
    work_is_restricted none = false ∧
    work_language none = Language.UNKNOWN ∧
    (∀ d : WorkDoc, d.titleTexts = [] → work_title (some d) = Except.ok "") ∧
    (∀ d : WorkDoc, d.summaryTexts = [] → work_summary (some d) = Except.ok "") ∧
    (∀ d : WorkDoc, d.languageTexts = [] → work_language (some d) = Language.UNKNOWN) ∧
    (∀ (d : WorkDoc) (t : Option String) (ts : List (Option String)),
      d.languageTexts = t :: ts → work_language (some d) = languageCtor t) ∧
    languageCtor (some "not-a-language") = Language.UNKNOWN ∧
    languageCtor none = Language.UNKNOWN ∧
    languageCtor (some "English") = Language.EN ∧
    (∀ d : WorkDoc, d.ncommentsTexts = [] → work_ncomments (some d) = Except.ok 0) ∧
    (∀ (d : WorkDoc) (ts : List (Option String)),
      d.ncommentsTexts = some "abc" :: ts → work_ncomments (some d) = Except.ok 0) ∧
    (∀ d : WorkDoc, d.nchaptersTexts = [] → work_nchapters (some d) = Except.ok (none, none)) ∧
    (∀ d : WorkDoc, d.authorHrefs = [] → work_authors (some d) = Except.ok []) ∧
    (∀ (d : WorkDoc) (h : Option String) (ts : List (Option String)),
      d.authorHrefs = h :: ts → (pySplitChar (h.getD "") '/').get? 1 = none →
      work_authors (some d) = Except.error AO3Exn.indexError) := by
  refine ⟨rfl, rfl, rfl, rfl, rfl, rfl, rfl, rfl, ?_, ?_, ?_, ?_, rfl, rfl, rfl,
    ?_, ?_, ?_, ?_, ?_⟩
  · intro d h
    simp [work_title, h]
  · intro d h
    simp [work_summary, h]
  · intro d h
    simp [work_language, h]
  · intro d t ts h
    simp [work_language, h]
  · intro d h
    simp [work_ncomments, h]
  · intro d ts h
    simp [work_ncomments, h]
    rfl
  · intro d h
    simp [work_nchapters, h]
  · intro d h
    simp [work_authors, h, authorsFromHrefs]
  · intro d h ts hh hsplit
    rw [List.get?_eq_getElem?] at hsplit
    simp [work_authors, hh, authorsFromHrefs, hsplit]

/-- Witness for the amended C8 at concrete documents. -/
theorem work_attribute_policy_amended_witness :
    work_title (some { }) = Except.ok "" ∧
    work_language (some { languageTexts := [some "Klingon"] }) =
      languageCtor (some "Klingon") ∧
    work_ncomments (some { ncommentsTexts := [some "abc"] }) = Except.ok 0 ∧
    work_nchapters (some { }) = Except.ok (none, none) ∧
    work_authors (some { }) = Except.ok [] ∧
    work_authors (some { authorHrefs := [some "nohref"] }) =
      Except.error AO3Exn.indexError :=
  ⟨work_attribute_policy_amended.2.2.2.2.2.2.2.2.1 { } rfl,
   work_attribute_policy_amended.2.2.2.2.2.2.2.2.2.2.2.1
     { languageTexts := [some "Klingon"] } (some "Klingon") [] rfl,
   work_attribute_policy_amended.2.2.2.2.2.2.2.2.2.2.2.2.2.2.2.2.1
     { ncommentsTexts := [some "abc"] } [] rfl,
   work_attribute_policy_amended.2.2.2.2.2.2.2.2.2.2.2.2.2.2.2.2.2.1 { } rfl,
   work_attribute_policy_amended.2.2.2.2.2.2.2.2.2.2.2.2.2.2.2.2.2.2.1 { } rfl,
   work_attribute_policy_amended.2.2.2.2.2.2.2.2.2.2.2.2.2.2.2.2.2.2.2
     { authorHrefs := [some "nohref"] } (some "nohref") [] rfl rfl⟩

end Ao3
